import Mathlib

/-!
Verification development for the secloop repository: a shallow embedding of
the remediation-loop engine (`src/secloop/loop.py`), the scanner registry and
ecosystem scanners (`src/secloop/scanners/*.py`, `src/ralph/scanners/npm.py`),
and the secret scanner (`src/secloop/scanners/secrets.py`).

External effects (subprocess invocations, PATH lookups, JSON decoding) are
modelled as oracles supplied through environment records: each call site of
`subprocess.run` reads its outcome from the environment, `json.loads` is an
environment function returning either a decoded value or a decode error, and
`shutil.which` is a predicate on executable names.  Decoded Python values are
represented by the inductive type `J`; a `J.obj` represents a decoded `dict`
(association list with unique keys, looked up by first occurrence), matching
the result of `json.loads`.  Python exceptions are modelled with `Except`:
a `.error` result is an exception propagating to the caller.
-/

/-- Python exception classes relevant to the embedded code. -/
inductive PyExc where
  | fileNotFound
  | jsonDecode
  | typeError
  | attributeError
  | keyError
  | indexError
  deriving DecidableEq, Repr

/-- A decoded Python value (the result of `json.loads`): `null`, `bool`,
`int`, `str`, `list`, or `dict` (association list with unique keys). -/
inductive J where
  | null
  | b (x : Bool)
  | i (x : Int)
  | s (x : String)
  | arr (xs : List J)
  | obj (kvs : List (String × J))

/-- Dict lookup by key (first occurrence; decoded dicts have unique keys). -/
def jLookup : List (String × J) → String → Option J
  | [], _ => none
  | (k, v) :: rest, key => if k = key then some v else jLookup rest key

/-- Python truthiness of a value. -/
def J.truthy : J → Bool
  | .null => false
  | .b x => x
  | .i x => x != 0
  | .s x => x ≠ ""
  | .arr xs => !xs.isEmpty
  | .obj kvs => !kvs.isEmpty

/-- Whether a value is a Python `list` (`isinstance(v, list)`). -/
def J.isArrB : J → Bool
  | .arr _ => true
  | _ => false

/-- Python `==` between a value and a string literal (used by `in` on lists;
cross-type comparisons with `str` are `False` in Python). -/
def jIsStr (v : J) (k : String) : Bool :=
  match v with
  | .s x => x = k
  | _ => false

/-- Python membership test `key in v` for a string key: key lookup on dicts,
element equality on lists, substring test on strings, `TypeError` otherwise. -/
def pyContainsKey (v : J) (key : String) : Except PyExc Bool :=
  match v with
  | .obj kvs => .ok (kvs.any (fun kv => kv.1 = key))
  | .arr xs => .ok (xs.any (fun x => jIsStr x key))
  | .s str => .ok (decide (key.data <:+: str.data))
  | _ => .error .typeError

/-- Python subscript `v[key]` for a string key: dict lookup (KeyError when
absent), `TypeError` on any non-dict. -/
def pySubscript (v : J) (key : String) : Except PyExc J :=
  match v with
  | .obj kvs =>
      match jLookup kvs key with
      | some x => .ok x
      | none => .error .keyError
  | _ => .error .typeError

/-- Python `v.get(key, dflt)`: dict lookup with default; `AttributeError`
on any non-dict receiver. -/
def pyGet (v : J) (key : String) (dflt : J) : Except PyExc J :=
  match v with
  | .obj kvs => .ok ((jLookup kvs key).getD dflt)
  | _ => .error .attributeError

/-- Python `v.items()`: the key/value pairs of a dict in insertion order;
`AttributeError` on any non-dict receiver. -/
def pyItems (v : J) : Except PyExc (List (String × J)) :=
  match v with
  | .obj kvs => .ok kvs
  | _ => .error .attributeError

/-- Python iteration `for x in v`: list elements, dict keys, the characters
of a string (as one-character strings); `TypeError` otherwise. -/
def pyIter (v : J) : Except PyExc (List J) :=
  match v with
  | .arr xs => .ok xs
  | .obj kvs => .ok (kvs.map (fun kv => J.s kv.1))
  | .s str => .ok (str.data.map (fun c => J.s (String.mk [c])))
  | _ => .error .typeError

/-- Python subscript `v[0]`: first list element (IndexError when empty),
first character of a string, `KeyError` on dicts keyed by strings,
`TypeError` otherwise. -/
def pyIndexZero (v : J) : Except PyExc J :=
  match v with
  | .arr (x :: _) => .ok x
  | .arr [] => .error .indexError
  | .s str =>
      match str.data with
      | c :: _ => .ok (J.s (String.mk [c]))
      | [] => .error .indexError
  | .obj _ => .error .keyError
  | _ => .error .typeError

/-- Python `sep.join(v)`: iterate `v` and concatenate, requiring every
element to be a string (`TypeError` otherwise). -/
def pyJoin (sep : String) (v : J) : Except PyExc String :=
  match pyIter v with
  | .error e => .error e
  | .ok xs =>
      match xs.mapM (fun x => match x with | J.s str => Except.ok str | _ => Except.error PyExc.typeError) with
      | .error e => .error e
      | .ok strs => .ok (String.intercalate sep strs)

/-- Exception propagation: run `x`, feed its value to `f` (Python sequential
statements where the first may raise). -/
def exBind (x : Except PyExc α) (f : α → Except PyExc β) : Except PyExc β :=
  match x with
  | .error e => .error e
  | .ok a => f a

/-- Exception-propagating map over a list (Python `for` loop appending
one record per element, aborting at the first uncaught exception). -/
def mapE (f : α → Except PyExc β) : List α → Except PyExc (List β)
  | [] => .ok []
  | x :: xs =>
      match f x with
      | .error e => .error e
      | .ok y =>
          match mapE f xs with
          | .error e => .error e
          | .ok ys => .ok (y :: ys)

/-- Python `s.strip()`: remove leading and trailing whitespace
(structurally recursive char-list version). -/
def pyStrip (s : String) : String :=
  String.mk (((s.data.dropWhile Char.isWhitespace).reverse.dropWhile Char.isWhitespace).reverse)

/-- Python `s.lower()` (ASCII scope, as used by the registry keys). -/
def pyLower (s : String) : String :=
  String.mk (s.data.map Char.toLower)

/-- Lexicographic comparison of strings by code point (Python `<`). -/
def strLtB : List Char → List Char → Bool
  | [], [] => false
  | [], _ :: _ => true
  | _ :: _, [] => false
  | a :: as, b :: bs =>
      if a.toNat < b.toNat then true
      else if b.toNat < a.toNat then false
      else strLtB as bs

/-- Worker for Python `cmd.split()`: split on whitespace runs, dropping
empties; `acc` holds the current token reversed. -/
def wsSplitAux : List Char → List Char → List String
  | [], acc => if acc.isEmpty then [] else [String.mk acc.reverse]
  | c :: rest, acc =>
      if c.isWhitespace then
        if acc.isEmpty then wsSplitAux rest []
        else String.mk acc.reverse :: wsSplitAux rest []
      else wsSplitAux rest (c :: acc)

/-- A `Vulnerability` record as constructed at runtime (`scanners/base.py`).
The dataclass performs no type enforcement, so each field holds whatever
decoded value the parser stored; fields default to `None`. -/
structure PyVuln where
  package : J
  version : J
  id : J
  fix_version : J := .null
  severity : J := .null
  description : J := .null

/-- Outcome of one `subprocess.run` call that completed without raising:
captured stdout, stderr and exit code. -/
structure ProcOut where
  stdout : String
  stderr : String
  returncode : Int

/-- Raising outcomes of `subprocess.run`: `subprocess.TimeoutExpired` or
`FileNotFoundError` (command not on PATH). -/
inductive SubErr where
  | timeout
  | notFound
  deriving DecidableEq, Repr

/-- Python substring test `tok in out` (`loop.py` line 198). -/
def tokenIn (tok out : String) : Bool :=
  decide (tok.data <:+: out.data)

/-! ## The remediation loop (`src/secloop/loop.py`) -/

/-- Embedding of `IterationResult` dataclass (`loop.py` lines 26-33). -/
structure IterationResult where
  vulns_before : Nat
  vulns_after : Nat
  tests_passed : Bool
  completed : Bool
  output : String

/-- Embedding of `LoopResult` dataclass (`loop.py` lines 14-23).  `vulnerabilities_fixed`
is a Python `int` and may be negative, hence `Int`. -/
structure LoopResult where
  success : Bool
  iterations : Nat
  initial_vulns : Nat
  final_vulns : Nat
  vulnerabilities_fixed : Int
  message : String

/-- Oracle environment for one `RalphLoop.run` invocation.  `scan k` is the
list returned by the k-th call to `self.scanner.scan` (0-indexed in call
order); `agent i` is the combined captured output of the agent subprocess in
iteration `i` (or the degraded message on timeout/launch failure); `tests i`
is the boolean returned by `self.scanner.run_tests` in iteration `i`. -/
structure LoopEnv where
  claudeOnPath : Bool
  scannerAvailable : Bool
  depsFileFound : Bool
  scan : Nat → List PyVuln
  agent : Nat → String
  tests : Nat → Bool

/-- Embedding of `RalphLoop._check_prerequisites` (`loop.py` lines 149-167): Claude CLI on
PATH, scanner available, and a dependencies file present. -/
def checkPrerequisites (env : LoopEnv) : Bool :=
  env.claudeOnPath && env.scannerAvailable && env.depsFileFound

/-- Embedding of `RalphLoop._run_iteration` (`loop.py` lines 169-217), with the agent
output, post-iteration scan result and test verdict supplied as arguments.
The token check, conditional downgrade and final conjunction mirror lines
198-216 exactly. -/
def runIteration (completion_token output : String) (new_vulns : List PyVuln)
    (tests_passed : Bool) (vulns_before : Nat) : IterationResult :=
  { vulns_before := vulns_before
    vulns_after := new_vulns.length
    tests_passed := tests_passed
    completed :=
      (let completed := tokenIn completion_token output
       let completed :=
         if completed && (decide (new_vulns.length > 0) || !tests_passed) then false
         else completed
       completed && (new_vulns.length == 0) && tests_passed)
    output := output }

/-- Exhaustion result (`loop.py` lines 136-147). -/
def exhaustResult (maxIt initialCount finalCount : Nat) : LoopResult :=
  { success := false
    iterations := maxIt
    initial_vulns := initialCount
    final_vulns := finalCount
    vulnerabilities_fixed := (initialCount : Int) - (finalCount : Int)
    message := "Did not complete within " ++ toString maxIt ++ " iterations" }

/-- The `for iteration in range(1, max_iterations + 1)` loop of
`RalphLoop.run` (`loop.py` lines 104-147), as structural recursion on the
remaining iteration budget.  `iteration` is the 1-based loop index,
`scanIdx` the index of the next `scanner.scan` call, `trace` the ordered
list of `IterationResult`s produced so far (the values passed to the
`on_iteration` callback).  Returns the `LoopResult`, the full trace, and the
total number of `scanner.scan` calls made by the whole run. -/
def loopIter (env : LoopEnv) (tok : String) (maxIt initialCount : Nat) :
    Nat → Nat → Nat → Nat → List IterationResult → LoopResult × List IterationResult × Nat
  | 0, _currentVulns, _iteration, scanIdx, trace =>
      ((exhaustResult maxIt initialCount (env.scan scanIdx).length), trace, scanIdx + 1)
  | fuel + 1, currentVulns, iteration, scanIdx, trace =>
      let result := runIteration tok (env.agent iteration) (env.scan scanIdx)
        (env.tests iteration) currentVulns
      let trace := trace ++ [result]
      if result.completed then
        ({ success := true
           iterations := iteration
           initial_vulns := initialCount
           final_vulns := result.vulns_after
           vulnerabilities_fixed := (initialCount : Int) - (result.vulns_after : Int)
           message := "All vulnerabilities patched!" }, trace, scanIdx + 1)
      else
        loopIter env tok maxIt initialCount fuel result.vulns_after (iteration + 1)
          (scanIdx + 1) trace

/-- Embedding of `RalphLoop.run` (`loop.py` lines 62-147).  Returns the `LoopResult`, the
ordered trace of recorded `IterationResult`s, and the number of
`scanner.scan` calls the run performed. -/
def loopRun (env : LoopEnv) (maxIt : Nat) (tok : String) :
    LoopResult × List IterationResult × Nat :=
  if checkPrerequisites env then
    let initialCount := (env.scan 0).length
    if initialCount = 0 then
      ({ success := true
         iterations := 0
         initial_vulns := 0
         final_vulns := 0
         vulnerabilities_fixed := 0
         message := "No vulnerabilities found!" }, [], 1)
    else
      loopIter env tok maxIt initialCount maxIt initialCount 1 1 []
  else
    ({ success := false
       iterations := 0
       initial_vulns := 0
       final_vulns := 0
       vulnerabilities_fixed := 0
       message := "Prerequisites check failed" }, [], 0)

/-- The ground-truth completion condition of iteration `i` in environment
`env`: token present in the agent output, post-iteration scan empty, and
tests passing. -/
def iterCompletes (env : LoopEnv) (tok : String) (i : Nat) : Prop :=
  tokenIn tok (env.agent i) = true ∧ (env.scan i).length = 0 ∧ env.tests i = true

instance (env : LoopEnv) (tok : String) (i : Nat) : Decidable (iterCompletes env tok i) :=
  inferInstanceAs (Decidable (_ ∧ _ ∧ _))

/-! ## Pip scanner (`src/secloop/scanners/pip.py`)

Subprocess outcomes are `Option ProcOut` (`none` = `FileNotFoundError`; the
scan invocations pass no timeout).  `parse` models `json.loads` on a given
stdout (`none` = `json.JSONDecodeError`). -/

structure PipScanEnv where
  jsonRun : Option ProcOut
  parse : String → Option J
  textRun : Option ProcOut

/-- One record of the pip JSON extraction (`pip.py` lines 47-56): `dep` is
known to be a dict (guarded by `isinstance`), `vuln` may be anything. -/
def pipVulnEntry (depKvs : List (String × J)) (vuln : J) : Except PyExc PyVuln :=
  match vuln with
  | .obj vk =>
      match pyJoin ", " ((jLookup vk "fix_versions").getD (J.arr [])) with
      | .error e => .error e
      | .ok fs =>
          .ok { package := (jLookup depKvs "name").getD (J.s "")
                version := (jLookup depKvs "version").getD (J.s "")
                id := (jLookup vk "id").getD (J.s "")
                fix_version := if fs = "" then J.null else J.s fs
                severity := J.null
                description := (jLookup vk "description").getD J.null }
  | _ => .error .attributeError

/-- The `for dep in deps` loop of `PipScanner.scan`: dicts with a `"vulns"`
key contribute one record per vuln, everything else is skipped. -/
def pipDepsLoop : List J → Except PyExc (List PyVuln)
  | [] => .ok []
  | dep :: rest =>
      match dep with
      | .obj kvs =>
          if kvs.any (fun kv => kv.1 = "vulns") then
            match pyIter ((jLookup kvs "vulns").getD (J.arr [])) with
            | .error e => .error e
            | .ok vulns =>
                match mapE (pipVulnEntry kvs) vulns with
                | .error e => .error e
                | .ok vs =>
                    match pipDepsLoop rest with
                    | .error e => .error e
                    | .ok more => .ok (vs ++ more)
          else pipDepsLoop rest
      | _ => pipDepsLoop rest

/-- Embedding of `deps` selection of `PipScanner.scan` (`pip.py` lines 40-45): a dict with
a `"dependencies"` key yields that value, a list yields itself, anything
else yields `[]`. -/
def pipDeps (data : J) : J :=
  match data with
  | .obj kvs =>
      match jLookup kvs "dependencies" with
      | some v => v
      | none => J.arr []
  | .arr _ => data
  | _ => J.arr []

/-- JSON extraction path of `PipScanner.scan`; exceptions other than the two
caught classes propagate. -/
def pipExtract (data : J) : Except PyExc (List PyVuln) :=
  match pyIter (pipDeps data) with
  | .error e => .error e
  | .ok deps => pipDepsLoop deps

/-- Embedding of `[\w-]` character class of the pip text-output regex (ASCII scope). -/
def isWordDash (c : Char) : Bool :=
  c.isAlphanum || c = '_' || c = '-'

/-- The `(?:CVE|PYSEC|GHSA)` alternation at the start of the id group. -/
def idHead (cs : List Char) : Option (List Char × List Char) :=
  if cs.take 3 = ['C', 'V', 'E'] then some (['C', 'V', 'E'], cs.drop 3)
  else if cs.take 5 = ['P', 'Y', 'S', 'E', 'C'] then some (['P', 'Y', 'S', 'E', 'C'], cs.drop 5)
  else if cs.take 4 = ['G', 'H', 'S', 'A'] then some (['G', 'H', 'S', 'A'], cs.drop 4)
  else none

/-- Embedding of `re.match` of the pip table pattern
`^(\S+)\s+(\S+)\s+((?:CVE|PYSEC|GHSA)[\w-]+)\s+(.*)$` against one stripped
line (`pip.py` lines 83-94).  Greedy scanning is equivalent to the regex
here because every group boundary is a whitespace/non-whitespace switch. -/
def pipMatchLine (line : String) : Option PyVuln :=
  let cs := line.data
  let g1 := cs.takeWhile (fun c => !c.isWhitespace)
  if g1.isEmpty then none else
  let r1 := cs.drop g1.length
  let w1 := r1.takeWhile Char.isWhitespace
  if w1.isEmpty then none else
  let r2 := r1.drop w1.length
  let g2 := r2.takeWhile (fun c => !c.isWhitespace)
  if g2.isEmpty then none else
  let r3 := r2.drop g2.length
  let w2 := r3.takeWhile Char.isWhitespace
  if w2.isEmpty then none else
  let r4 := r3.drop w2.length
  match idHead r4 with
  | none => none
  | some (pfx, r5) =>
      let idTail := r5.takeWhile isWordDash
      if idTail.isEmpty then none else
      let r6 := r5.drop idTail.length
      let w3 := r6.takeWhile Char.isWhitespace
      if w3.isEmpty then none else
      let g4 := String.mk (r6.drop w3.length)
      some { package := J.s (String.mk g1)
             version := J.s (String.mk g2)
             id := J.s (String.mk (pfx ++ idTail))
             fix_version := if pyStrip g4 = "" then J.null else J.s (pyStrip g4)
             severity := J.null
             description := J.null }

/-- Embedding of `PipScanner._parse_text_output`'s parsing of the combined output. -/
def pipTextParse (output : String) : List PyVuln :=
  (output.splitOn "\n").filterMap (fun line => pipMatchLine (pyStrip line))

/-- Embedding of `PipScanner._parse_text_output` (`pip.py` lines 63-96): re-invokes
pip-audit in text mode with no surrounding `try`, so a missing tool raises
`FileNotFoundError` out of this helper. -/
def pipParseText (env : PipScanEnv) : Except PyExc (List PyVuln) :=
  match env.textRun with
  | none => .error .fileNotFound
  | some r => .ok (pipTextParse (r.stdout ++ r.stderr))

/-- Embedding of `PipScanner.scan` (`pip.py` lines 18-61): JSON run, parse, extraction;
`json.JSONDecodeError` and `FileNotFoundError` fall back to the text parse,
other exceptions propagate. -/
def pipScan (env : PipScanEnv) : Except PyExc (List PyVuln) :=
  match env.jsonRun with
  | none => pipParseText env
  | some r =>
      if pyStrip r.stdout = "" then .ok []
      else
        match env.parse r.stdout with
        | none => pipParseText env
        | some data => pipExtract data

/-! ## Ruby scanner (`src/secloop/scanners/ruby.py`) -/

structure RubyScanEnv where
  updateRun : Option ProcOut
  checkRun : Option ProcOut
  parse : String → Option J
  textRun : Option ProcOut

/-- One record of the ruby JSON extraction (`ruby.py` lines 46-57). -/
def rubyEntry (finding : J) : Except PyExc PyVuln := do
  match finding with
  | .obj fk =>
      let advisory := (jLookup fk "advisory").getD (J.obj [])
      let gem := (jLookup fk "gem").getD (J.obj [])
      let pkg ← pyGet gem "name" (J.s "")
      let ver ← pyGet gem "version" (J.s "")
      let cve ← pyGet advisory "cve" J.null
      let osvdb ← pyGet advisory "osvdb" J.null
      let ghsa ← pyGet advisory "ghsa" (J.s "")
      let idv := if cve.truthy then cve else if osvdb.truthy then osvdb else ghsa
      let patched ← pyGet advisory "patched_versions" J.null
      let fix ←
        (if patched.truthy then do
            let pv ← pyGet advisory "patched_versions" (J.arr [J.s ""])
            pyIndexZero pv
          else pure J.null)
      let sev ← pyGet advisory "criticality" J.null
      let desc ← pyGet advisory "title" J.null
      pure { package := pkg, version := ver, id := idv, fix_version := fix,
             severity := sev, description := desc }
  | _ => .error .attributeError

/-- JSON extraction path of `RubyScanner.scan`. -/
def rubyExtract (data : J) : Except PyExc (List PyVuln) := do
  let results ← pyGet data "results" (J.arr [])
  let fs ← pyIter results
  mapE rubyEntry fs

/-- Anchored attempt of `re.search(r"upgrade to [~>]* ([\d.]+)", ...)` at the
start of a character list. -/
def rubyFixAt (cs : List Char) : Option String :=
  let lit := "upgrade to ".data
  if cs.take lit.length = lit then
    let r := cs.drop lit.length
    let tws := r.takeWhile (fun c => c = '~' || c = '>')
    match r.drop tws.length with
    | ' ' :: r3 =>
        let digits := r3.takeWhile (fun c => c.isDigit || c = '.')
        if digits.isEmpty then none else some (String.mk digits)
    | _ => none
  else none

/-- Embedding of `re.search` of the solution pattern over the lowered line. -/
def rubySearchFix : List Char → Option String
  | [] => none
  | c :: rest =>
      match rubyFixAt (c :: rest) with
      | some f => some f
      | none => rubySearchFix rest

/-- The `current` dict accumulated by `RubyScanner._parse_text_output`. -/
structure RubyCur where
  package : Option String := none
  version : Option String := none
  id : Option String := none
  fix_version : Option String := none
  description : Option String := none

/-- Python `line.split(":", 1)[1]`: everything after the first colon. -/
def afterFirstColon (line : String) : String :=
  String.intercalate ":" ((line.splitOn ":").drop 1)

/-- Record construction at a blank line (`ruby.py` lines 98-104). -/
def rubyMkTextVuln (cur : RubyCur) : PyVuln :=
  { package := J.s (cur.package.getD "")
    version := J.s (cur.version.getD "")
    id := J.s (cur.id.getD "")
    fix_version := match cur.fix_version with | none => J.null | some f => J.s f
    severity := J.null
    description := match cur.description with | none => J.null | some d => J.s d }

/-- One line of the ruby text parse (`ruby.py` lines 83-105). -/
def rubyTextStep (st : RubyCur × List PyVuln) (rawLine : String) : RubyCur × List PyVuln :=
  let line := pyStrip rawLine
  let cur := st.1
  let acc := st.2
  if line.startsWith "Name:" then ({ cur with package := some (pyStrip (afterFirstColon line)) }, acc)
  else if line.startsWith "Version:" then ({ cur with version := some (pyStrip (afterFirstColon line)) }, acc)
  else if line.startsWith "CVE:" || line.startsWith "GHSA:" then
    ({ cur with id := some (pyStrip (afterFirstColon line)) }, acc)
  else if line.startsWith "Solution:" then
    match rubySearchFix (pyLower line).data with
    | some f => ({ cur with fix_version := some f }, acc)
    | none => (cur, acc)
  else if line.startsWith "Title:" then
    ({ cur with description := some (pyStrip (afterFirstColon line)) }, acc)
  else if line = "" && (cur.package.getD "") ≠ "" then ({}, acc ++ [rubyMkTextVuln cur])
  else (cur, acc)

/-- Embedding of `RubyScanner._parse_text_output`'s parsing of the combined output. -/
def rubyTextParse (output : String) : List PyVuln :=
  ((output.splitOn "\n").foldl rubyTextStep ({}, [])).2

/-- Embedding of `RubyScanner._parse_text_output` (`ruby.py` lines 65-107): re-invokes
bundle-audit with no surrounding `try`. -/
def rubyParseText (env : RubyScanEnv) : Except PyExc (List PyVuln) :=
  match env.textRun with
  | none => .error .fileNotFound
  | some r => .ok (rubyTextParse (r.stdout ++ r.stderr))

/-- Embedding of `RubyScanner.scan` (`ruby.py` lines 18-63).  The advisory-database
`bundle-audit update` call at lines 24-28 precedes the `try` block, so a
missing tool raises there. -/
def rubyScan (env : RubyScanEnv) : Except PyExc (List PyVuln) :=
  match env.updateRun with
  | none => .error .fileNotFound
  | some _ =>
      match env.checkRun with
      | none => rubyParseText env
      | some r =>
          if pyStrip r.stdout = "" then .ok []
          else
            match env.parse r.stdout with
            | none => rubyParseText env
            | some data => rubyExtract data

/-! ## Npm scanner (`src/ralph/scanners/npm.py`) -/

structure NpmScanEnv where
  run : Option ProcOut
  parse : String → Option J

/-- One record of the npm-audit v2 extraction (`npm.py` lines 34-41). -/
def npmV2entry (pkg : String) (vd : J) : Except PyExc PyVuln := do
  let version ← pyGet vd "range" (J.s "")
  let via0 ← pyGet vd "via" (J.arr [])
  let idv ←
    (if via0.isArrB && via0.truthy then do
        let viaAgain ← pyGet vd "via" (J.arr [J.obj []])
        let first ← pyIndexZero viaAgain
        pyGet first "url" (J.s "")
      else pure (J.s ""))
  let fa ← pyGet vd "fixAvailable" J.null
  let fix ←
    (match fa with
     | .obj _ => do
         let fa2 ← pyGet vd "fixAvailable" (J.obj [])
         pyGet fa2 "version" J.null
     | _ => pure J.null)
  let sev ← pyGet vd "severity" J.null
  pure { package := J.s pkg, version := version, id := idv, fix_version := fix,
         severity := sev, description := J.null }

/-- Embedding of `data["vulnerabilities"].items()` loop of the v2 branch. -/
def npmV2 (v : J) : Except PyExc (List PyVuln) := do
  let items ← pyItems v
  mapE (fun kv => npmV2entry kv.1 kv.2) items

/-- One record of the npm-audit v1 extraction (`npm.py` lines 45-53). -/
def npmV1entry (aid : String) (adv : J) : Except PyExc PyVuln := do
  let pkg ← pyGet adv "module_name" (J.s "")
  let ver ← pyGet adv "vulnerable_versions" (J.s "")
  let fix ← pyGet adv "patched_versions" J.null
  let sev ← pyGet adv "severity" J.null
  let desc ← pyGet adv "title" J.null
  pure { package := pkg, version := ver, id := J.s ("npm:" ++ aid), fix_version := fix,
         severity := sev, description := desc }

/-- Embedding of `data["advisories"].items()` loop of the v1 branch. -/
def npmV1 (v : J) : Except PyExc (List PyVuln) := do
  let items ← pyItems v
  mapE (fun kv => npmV1entry kv.1 kv.2) items

/-- Shape selection of `NpmScanner.scan` (`npm.py` lines 32-53):
`"vulnerabilities" in data` picks the v2 branch, else `"advisories" in data`
the v1 branch, else the result stays empty.  Python's `in` on non-dicts
is element/substring membership and raises `TypeError` on numbers, booleans
and `None`. -/
def npmFromData (data : J) : Except PyExc (List PyVuln) :=
  match pyContainsKey data "vulnerabilities" with
  | .error e => .error e
  | .ok true =>
      match pySubscript data "vulnerabilities" with
      | .error e => .error e
      | .ok v => npmV2 v
  | .ok false =>
      match pyContainsKey data "advisories" with
      | .error e => .error e
      | .ok true =>
          match pySubscript data "advisories" with
          | .error e => .error e
          | .ok v => npmV1 v
      | .ok false => .ok []

/-- Embedding of `NpmScanner.scan` (`npm.py` lines 17-58): `FileNotFoundError` and
`json.JSONDecodeError` are caught with `pass`, leaving the empty list. -/
def npmScan (env : NpmScanEnv) : Except PyExc (List PyVuln) :=
  match env.run with
  | none => .ok []
  | some r =>
      if pyStrip r.stdout = "" then .ok []
      else
        match env.parse r.stdout with
        | none => .ok []
        | some data => npmFromData data

/-! ## Go scanner (`src/secloop/scanners/go.py`) -/

structure GoScanEnv where
  run : Option ProcOut
  parse : String → Option J

/-- One record of the govulncheck extraction (`go.py` lines 48-56). -/
def goEntry (osv : J) (modJ : J) : Except PyExc PyVuln := do
  let pkg ← pyGet modJ "path" (J.s "")
  let ver ← pyGet modJ "found_version" (J.s "")
  let idv ← pyGet osv "id" (J.s "")
  let fix ← pyGet modJ "fixed_version" J.null
  let sev ← pyGet osv "severity" J.null
  let desc ← pyGet osv "summary" J.null
  pure { package := pkg, version := ver, id := idv, fix_version := fix,
         severity := sev, description := desc }

/-- Extraction from one decoded NDJSON line (`go.py` lines 42-56). -/
def goLineExtract (data : J) : Except PyExc (List PyVuln) := do
  let hasV ← pyContainsKey data "vulnerability"
  if hasV then do
    let vuln ← pySubscript data "vulnerability"
    let osv ← pyGet vuln "osv" (J.obj [])
    let modules ← pyGet vuln "modules" (J.arr [])
    let mods ← pyIter modules
    mapE (goEntry osv) mods
  else pure []

/-- The per-line NDJSON loop of `GoScanner.scan` (`go.py` lines 37-58):
blank lines and lines failing `json.loads` are skipped by the inner
`try`/`continue`. -/
def goLines (parse : String → Option J) : List String → Except PyExc (List PyVuln)
  | [] => .ok []
  | line :: rest =>
      if pyStrip line = "" then goLines parse rest
      else
        match parse line with
        | none => goLines parse rest
        | some data =>
            match goLineExtract data with
            | .error e => .error e
            | .ok vs =>
                match goLines parse rest with
                | .error e => .error e
                | .ok more => .ok (vs ++ more)

/-- Embedding of `GoScanner.scan` (`go.py` lines 17-63). -/
def goScan (env : GoScanEnv) : Except PyExc (List PyVuln) :=
  match env.run with
  | none => .ok []
  | some r => goLines env.parse ((pyStrip r.stdout).splitOn "\n")

/-! ## Rust scanner (`src/secloop/scanners/rust.py`) -/

structure RustScanEnv where
  run : Option ProcOut
  parse : String → Option J

/-- One record of the cargo-audit extraction (`rust.py` lines 38-54). -/
def rustEntry (vuln : J) : Except PyExc PyVuln := do
  let advisory ← pyGet vuln "advisory" (J.obj [])
  let pkg ← pyGet vuln "package" (J.obj [])
  let versions ← pyGet vuln "versions" (J.obj [])
  let patched ← pyGet versions "patched" (J.arr [])
  let fix ← (if patched.truthy then pyIndexZero patched else pure J.null)
  let name ← pyGet pkg "name" (J.s "")
  let ver ← pyGet pkg "version" (J.s "")
  let idv ← pyGet advisory "id" (J.s "")
  let sev ← pyGet advisory "severity" J.null
  let desc ← pyGet advisory "title" J.null
  pure { package := name, version := ver, id := idv, fix_version := fix,
         severity := sev, description := desc }

/-- Embedding of `data.get("vulnerabilities", {}).get("list", [])` loop of
`RustScanner.scan`. -/
def rustExtract (data : J) : Except PyExc (List PyVuln) := do
  let vulns ← pyGet data "vulnerabilities" (J.obj [])
  let lst ← pyGet vulns "list" (J.arr [])
  let xs ← pyIter lst
  mapE rustEntry xs

/-- Embedding of `RustScanner.scan` (`rust.py` lines 17-59): `FileNotFoundError` and
`json.JSONDecodeError` are caught with `pass`. -/
def rustScan (env : RustScanEnv) : Except PyExc (List PyVuln) :=
  match env.run with
  | none => .ok []
  | some r =>
      if pyStrip r.stdout = "" then .ok []
      else
        match env.parse r.stdout with
        | none => .ok []
        | some data => rustExtract data

/-! ## `run_tests` and `install_dependencies` -/

/-- Embedding of `command or default` with Python falsiness of the empty string. -/
def defaultedCommand (defaultCmd : String) (command : Option String) : String :=
  match command with
  | none => defaultCmd
  | some c => if c = "" then defaultCmd else c

/-- Python `cmd.split()`: split on whitespace runs, dropping empties. -/
def splitCmd (cmd : String) : List String :=
  wsSplitAux cmd.data []

/-- The shared `run_tests` body (identical in `pip.py` lines 98-116,
`npm.py`, `go.py`, `rust.py`, `ruby.py` up to the default command):
`TimeoutExpired` and `FileNotFoundError` are both caught and reported as
`(False, message)`. -/
def genericRunTests (defaultCmd : String) (command : Option String)
    (proc : Except SubErr ProcOut) : Except PyExc (Bool × String) :=
  let parts := splitCmd (defaultedCommand defaultCmd command)
  match proc with
  | .ok r => .ok (r.returncode == 0, r.stdout ++ r.stderr)
  | .error .timeout => .ok (false, "Tests timed out")
  | .error .notFound =>
      match parts with
      | [] => .error .indexError
      | p :: _ => .ok (false, "Command not found: " ++ p)

def pipRunTests : Option String → Except SubErr ProcOut → Except PyExc (Bool × String) :=
  genericRunTests "pytest"

def npmRunTests : Option String → Except SubErr ProcOut → Except PyExc (Bool × String) :=
  genericRunTests "npm test"

def goRunTests : Option String → Except SubErr ProcOut → Except PyExc (Bool × String) :=
  genericRunTests "go test ./..."

def rustRunTests : Option String → Except SubErr ProcOut → Except PyExc (Bool × String) :=
  genericRunTests "cargo test"

def rubyRunTests : Option String → Except SubErr ProcOut → Except PyExc (Bool × String) :=
  genericRunTests "bundle exec rspec"

/-- The shared `install_dependencies` subprocess wrapper: only
`TimeoutExpired` is caught; `FileNotFoundError` propagates to the caller. -/
def genericInstall (timeoutMsg : String) (proc : Except SubErr ProcOut) :
    Except PyExc (Bool × String) :=
  match proc with
  | .ok r => .ok (r.returncode == 0, r.stdout ++ r.stderr)
  | .error .timeout => .ok (false, timeoutMsg)
  | .error .notFound => .error .fileNotFound

/-- Embedding of `PipScanner.install_dependencies` (`pip.py` lines 126-148). -/
def pipInstallDeps (reqExists pyprojectExists : Bool) (proc : Except SubErr ProcOut) :
    Except PyExc (Bool × String) :=
  if reqExists || pyprojectExists then genericInstall "Installation timed out" proc
  else .ok (false, "No requirements.txt or pyproject.toml found")

/-- Embedding of `RubyScanner.install_dependencies` (`ruby.py` lines 137-150). -/
def rubyInstallDeps : Except SubErr ProcOut → Except PyExc (Bool × String) :=
  genericInstall "Install timed out"

/-- Embedding of `NpmScanner.install_dependencies` (`npm.py` lines 85-102). -/
def npmInstallDeps : Except SubErr ProcOut → Except PyExc (Bool × String) :=
  genericInstall "Installation timed out"

/-- Embedding of `GoScanner.install_dependencies` (`go.py` lines 90-103). -/
def goInstallDeps : Except SubErr ProcOut → Except PyExc (Bool × String) :=
  genericInstall "Download timed out"

/-- Embedding of `RustScanner.install_dependencies` (`rust.py` lines 86-99). -/
def rustInstallDeps : Except SubErr ProcOut → Except PyExc (Bool × String) :=
  genericInstall "Build timed out"

/-! ## Scanner registry (`src/secloop/scanners/__init__.py`) -/

/-- The scanner classes the registry can return. -/
inductive SClass where
  | pip | npm | go | rust | ruby
  deriving DecidableEq, Repr

/-- Embedding of `ECOSYSTEM_SCANNERS` dict (`__init__.py` lines 31-42), in source order. -/
def ECOSYSTEM_SCANNERS : List (String × SClass) :=
  [("pip", .pip), ("python", .pip), ("npm", .npm), ("node", .npm),
   ("go", .go), ("golang", .go), ("cargo", .rust), ("rust", .rust),
   ("ruby", .ruby), ("gem", .ruby)]

/-- Dict lookup on the registry (first occurrence; keys are unique). -/
def lookupClass : List (String × SClass) → String → Option SClass
  | [], _ => none
  | (k, v) :: rest, key => if k = key then some v else lookupClass rest key

/-- Ascending insertion for lexicographic string sort. -/
def insertStr (x : String) : List String → List String
  | [] => [x]
  | y :: ys => if strLtB x.data y.data then x :: y :: ys else y :: insertStr x ys

/-- Python `sorted` on strings (insertion sort, ascending). -/
def sortStrings : List String → List String
  | [] => []
  | x :: xs => insertStr x (sortStrings xs)

/-- Uniqueness of `set(...)` (keeps one occurrence of each key). -/
def dedupStr : List String → List String
  | [] => []
  | x :: xs => if xs.contains x then dedupStr xs else x :: dedupStr xs

/-- Embedding of `", ".join(sorted(set(ECOSYSTEM_SCANNERS.keys())))`. -/
def supportedStr : String :=
  String.intercalate ", " (sortStrings (dedupStr (ECOSYSTEM_SCANNERS.map Prod.fst)))

/-- Embedding of `get_scanner` (`__init__.py` lines 45-52): case-insensitive lookup; an
unknown key raises `ValueError` with the enumerating message (modelled as
`.error`). -/
def getScanner (ecosystem : String) : Except String SClass :=
  match lookupClass ECOSYSTEM_SCANNERS (pyLower ecosystem) with
  | none => .error ("Unsupported ecosystem: " ++ ecosystem ++ ". Supported: " ++ supportedStr)
  | some c => .ok c

/-! ## `is_available` (`shutil.which` modelled as a predicate on names) -/

/-- Embedding of `Scanner.is_available` default (`base.py` lines 56-59). -/
def scannerIsAvailable (name : String) (which : String → Bool) : Bool :=
  which name

def pipScannerName : String := "pip-audit"
def npmScannerName : String := "npm"
def goScannerName : String := "govulncheck"
def rustScannerName : String := "cargo-audit"
def rubyScannerName : String := "bundler-audit"

/-- Embedding of `PipScanner.is_available` (`pip.py` lines 150-153). -/
def pipIsAvailable (which : String → Bool) : Bool := which "pip-audit"

/-- Embedding of `NpmScanner.is_available` (`npm.py` lines 104-107). -/
def npmIsAvailable (which : String → Bool) : Bool := which "npm"

/-- Embedding of `GoScanner.is_available` (`go.py` lines 105-108). -/
def goIsAvailable (which : String → Bool) : Bool := which "govulncheck"

/-- Embedding of `RustScanner.is_available` (`rust.py` lines 101-104). -/
def rustIsAvailable (which : String → Bool) : Bool := which "cargo-audit" || which "cargo"

/-- Embedding of `RubyScanner.is_available` (`ruby.py` lines 152-155). -/
def rubyIsAvailable (which : String → Bool) : Bool :=
  which "bundle-audit" || which "bundler-audit"

/-! ## Secret scanner (`src/secloop/scanners/secrets.py`) -/

/-- The redaction expression of `secrets.py` lines 67 and 106. -/
def redactSecret (s : String) : String :=
  if s.length > 4 then String.mk (s.data.take 4) ++ String.mk (List.replicate (s.length - 4) '*')
  else "****"

/-- A `Secret` record as constructed at runtime (`secrets.py` lines 10-19);
fields hold whatever decoded values the parser stored. -/
structure SecretRec where
  file : J
  line : J
  rule : J
  secret : J
  commit : J := .null
  author : J := .null
  description : J := .null

/-- The conditional redaction expression applied to `secret_val`
(`secrets.py` lines 66-67): on a string it yields `redactSecret`; the
slice/concatenation is undefined on other values — Python raises `TypeError`
on non-sliceable or non-concatenable values, while a list or dict of length
at most 4 falls into the `"****"` branch. -/
def redactValue (sv : J) : Except PyExc String :=
  match sv with
  | .s raw => .ok (redactSecret raw)
  | .arr xs => if 4 < xs.length then .error .typeError else .ok "****"
  | .obj kvs => if 4 < kvs.length then .error .typeError else .ok "****"
  | _ => .error .typeError

/-- One record of `SecretScanner.scan` (`secrets.py` lines 64-76). -/
def mkScanSecret (finding : J) : Except PyExc SecretRec :=
  match finding with
  | .obj fk =>
      exBind (redactValue ((jLookup fk "Secret").getD (J.s ""))) (fun red =>
        .ok { file := (jLookup fk "File").getD (J.s "")
              line := (jLookup fk "StartLine").getD (J.i 0)
              rule := (jLookup fk "RuleID").getD (J.s "")
              secret := J.s red
              commit := (jLookup fk "Commit").getD J.null
              description := (jLookup fk "Description").getD J.null })
  | _ => .error .attributeError

/-- One record of `SecretScanner.scan_git_history` (`secrets.py` lines
104-116): like `mkScanSecret` with the `Author` field added. -/
def mkHistSecret (finding : J) : Except PyExc SecretRec :=
  exBind (mkScanSecret finding) (fun rec0 =>
    match finding with
    | .obj fk => .ok { rec0 with author := (jLookup fk "Author").getD J.null }
    | _ => .error .attributeError)

structure SecretScanEnv where
  run : Option ProcOut
  parse : String → Option J

/-- The shared body of `SecretScanner.scan` and `scan_git_history`
(`secrets.py` lines 54-80 and 95-120, identical except for the per-finding
record constructor): gitleaks invocation, JSON array iteration, per-finding
redaction; `FileNotFoundError` and `json.JSONDecodeError` are caught with
`pass`. -/
def secretScanWith (g : J → Except PyExc SecretRec) (env : SecretScanEnv) :
    Except PyExc (List SecretRec) :=
  match env.run with
  | none => .ok []
  | some r =>
      if pyStrip r.stdout = "" then .ok []
      else
        match env.parse r.stdout with
        | none => .ok []
        | some data =>
            match pyIter data with
            | .error e => .error e
            | .ok findings => mapE g findings

/-- Embedding of `SecretScanner.scan` (`secrets.py` lines 37-80). -/
def secretScan : SecretScanEnv → Except PyExc (List SecretRec) :=
  secretScanWith mkScanSecret

/-- Embedding of `SecretScanner.scan_git_history` (`secrets.py` lines 82-120). -/
def secretScanHistory : SecretScanEnv → Except PyExc (List SecretRec) :=
  secretScanWith mkHistSecret

/-! ## Concrete inputs for witnesses and counterexamples -/

/-- A sample vulnerability record. -/
def vSample : PyVuln :=
  { package := J.s "requests", version := J.s "2.19.0", id := J.s "CVE-2018-18074" }

/-- Loop environment whose initial scan is clean (all prerequisites pass). -/
def envClean : LoopEnv :=
  { claudeOnPath := true, scannerAvailable := true, depsFileFound := true
    scan := fun _ => [], agent := fun _ => "", tests := fun _ => true }

/-- Loop environment where every scan reports one vulnerability and tests
always fail, so no iteration can ever complete. -/
def envStuck : LoopEnv :=
  { claudeOnPath := true, scannerAvailable := true, depsFileFound := true
    scan := fun _ => [vSample], agent := fun _ => "", tests := fun _ => false }

/-- Loop environment where the initial scan finds one vulnerability and
iteration 1 verifies complete (token emitted, clean re-scan, tests pass). -/
def envOneShot : LoopEnv :=
  { claudeOnPath := true, scannerAvailable := true, depsFileFound := true
    scan := fun k => if k = 0 then [vSample] else []
    agent := fun _ => "done <COMPLETE>", tests := fun _ => true }

/-- Pip scan environment with pip-audit absent from PATH: every invocation
raises `FileNotFoundError`. -/
def pipEnvAbsent : PipScanEnv :=
  { jsonRun := none, parse := fun _ => none, textRun := none }

/-- Pip scan environment where the tool runs but emits malformed JSON; the
text-mode re-invocation succeeds with empty output. -/
def pipEnvBadJson : PipScanEnv :=
  { jsonRun := some { stdout := "not json", stderr := "", returncode := 1 }
    parse := fun _ => none
    textRun := some { stdout := "", stderr := "", returncode := 1 } }

/-- Ruby scan environment with bundler-audit absent from PATH. -/
def rubyEnvAbsent : RubyScanEnv :=
  { updateRun := none, checkRun := none, parse := fun _ => none, textRun := none }

/-- Ruby scan environment with malformed JSON and an empty text fallback. -/
def rubyEnvBadJson : RubyScanEnv :=
  { updateRun := some { stdout := "", stderr := "", returncode := 0 }
    checkRun := some { stdout := "not json", stderr := "", returncode := 1 }
    parse := fun _ => none
    textRun := some { stdout := "", stderr := "", returncode := 1 } }

/-- Npm scan environment whose stdout decodes to the JSON number `5`. -/
def npmEnvNum : NpmScanEnv :=
  { run := some { stdout := "5", stderr := "", returncode := 1 }
    parse := fun _ => some (J.i 5) }

/-- Npm scan environment with the tool absent from PATH. -/
def npmEnvAbsent : NpmScanEnv :=
  { run := none, parse := fun _ => none }

/-- Npm scan environment with malformed JSON output. -/
def npmEnvBadJson : NpmScanEnv :=
  { run := some { stdout := "not json", stderr := "", returncode := 1 }
    parse := fun _ => none }

/-- Go scan environment with the tool absent from PATH. -/
def goEnvAbsent : GoScanEnv :=
  { run := none, parse := fun _ => none }

/-- Go scan environment where no output line decodes as JSON. -/
def goEnvBadJson : GoScanEnv :=
  { run := some { stdout := "garbage line", stderr := "", returncode := 2 }
    parse := fun _ => none }

/-- Rust scan environment with the tool absent from PATH. -/
def rustEnvAbsent : RustScanEnv :=
  { run := none, parse := fun _ => none }

/-- Rust scan environment with malformed JSON output. -/
def rustEnvBadJson : RustScanEnv :=
  { run := some { stdout := "not json", stderr := "", returncode := 1 }
    parse := fun _ => none }

/-- Inner per-package dict of a v2-shaped npm-audit payload. -/
def npmV2Inner : J :=
  J.obj [("lodash", J.obj [("range", J.s "<4.17.21"), ("severity", J.s "high")])]

/-- A v2-shaped npm-audit payload (top-level `"vulnerabilities"` key). -/
def npmV2Data : J := J.obj [("vulnerabilities", npmV2Inner)]

/-- Inner advisories dict of a v1-shaped npm-audit payload. -/
def npmV1Inner : J :=
  J.obj [("118", J.obj [("module_name", J.s "lodash"), ("severity", J.s "high")])]

/-- A v1-shaped npm-audit payload (top-level `"advisories"` key). -/
def npmV1Data : J := J.obj [("advisories", npmV1Inner)]

/-- A dict payload with neither distinguishing key. -/
def npmNoKeyData : J := J.obj [("auditReportVersion", J.i 3)]

/-- A PATH on which only the plain `cargo` executable resolves. -/
def whichCargoOnly (s : String) : Bool := s = "cargo"

/-- A gitleaks finding with a 15-character detected secret. -/
def findingA : J :=
  J.obj [("File", J.s "config.py"), ("StartLine", J.i 12),
         ("RuleID", J.s "generic-api-key"), ("Secret", J.s "sk-abcdef123456"),
         ("Description", J.s "Generic API Key")]

/-- Secret-scan environment whose report decodes to one finding. -/
def secretEnvA : SecretScanEnv :=
  { run := some { stdout := "[]", stderr := "", returncode := 1 }
    parse := fun _ => some (J.arr [findingA]) }

/-- The record `SecretScanner.scan` produces for `findingA`. -/
def recA : SecretRec :=
  { file := J.s "config.py", line := J.i 12, rule := J.s "generic-api-key"
    secret := J.s (redactSecret "sk-abcdef123456")
    description := J.s "Generic API Key" }


/-! ## Theorems -/

theorem runIteration_completed_eq (tok out : String) (nv : List PyVuln) (tp : Bool) (vb : Nat) :
    (runIteration tok out nv tp vb).completed = (tokenIn tok out && (nv.length == 0) && tp) := by
  unfold runIteration
  cases h : tokenIn tok out <;> cases tp <;> cases hnv : nv.length <;> simp [h, hnv]

/-- C1: an iteration is recorded `completed` exactly when the completion
token occurs in the captured agent output, the post-iteration scan returned
zero vulnerabilities, and the tests passed; in particular token presence
with remaining vulnerabilities or failing tests yields `completed = false`. -/
theorem iteration_completed_iff (tok out : String) (nv : List PyVuln) (tp : Bool) (vb : Nat) :
    (runIteration tok out nv tp vb).completed = true ↔
      (tokenIn tok out = true ∧ nv.length = 0 ∧ tp = true) := by
  rw [runIteration_completed_eq]
  cases h : tokenIn tok out <;> cases tp <;> cases hnv : nv.length <;> simp [h, hnv]

/-- C2: when the prerequisite check passes and the initial scan is clean,
`run` returns `success = true` with zero iterations, records no iteration
(empty trace: the agent is never invoked) and performs exactly one scan. -/
theorem loop_clean_initial_scan (env : LoopEnv) (maxIt : Nat) (tok : String)
    (hp : checkPrerequisites env = true) (h0 : (env.scan 0).length = 0) :
    loopRun env maxIt tok =
      ({ success := true, iterations := 0, initial_vulns := 0, final_vulns := 0,
         vulnerabilities_fixed := 0, message := "No vulnerabilities found!" }, [], 1) := by
  unfold loopRun
  simp [hp, h0]

theorem loop_clean_initial_scan_witness :
    loopRun envClean 5 "<COMPLETE>" =
      ({ success := true, iterations := 0, initial_vulns := 0, final_vulns := 0,
         vulnerabilities_fixed := 0, message := "No vulnerabilities found!" }, [], 1) :=
  loop_clean_initial_scan envClean 5 "<COMPLETE>" rfl rfl

theorem loopIter_iterations_le (env : LoopEnv) (tok : String) (maxIt ic : Nat) :
    ∀ fuel cv it si tr, it + fuel = maxIt + 1 →
      (loopIter env tok maxIt ic fuel cv it si tr).1.iterations ≤ maxIt := by
  intro fuel
  induction fuel with
  | zero =>
      intro cv it si tr h
      simp [loopIter, exhaustResult]
  | succ n ih =>
      intro cv it si tr h
      simp only [loopIter]
      split
      · simp
        omega
      · exact ih _ _ _ _ (by omega)

theorem loopIter_success_completed (env : LoopEnv) (tok : String) (maxIt ic : Nat) :
    ∀ fuel cv it si tr,
      (loopIter env tok maxIt ic fuel cv it si tr).1.success = true →
      ∃ r ∈ (loopIter env tok maxIt ic fuel cv it si tr).2.1, r.completed = true := by
  intro fuel
  induction fuel with
  | zero =>
      intro cv it si tr h
      simp [loopIter, exhaustResult] at h
  | succ n ih =>
      intro cv it si tr h
      simp only [loopIter] at h ⊢
      by_cases hc :
          (runIteration tok (env.agent it) (env.scan si) (env.tests it) cv).completed = true
      · simp only [hc, if_true] at h ⊢
        exact ⟨_, List.mem_append_right _ (List.mem_singleton.mpr rfl), hc⟩
      · rw [Bool.not_eq_true] at hc
        simp only [hc, Bool.false_eq_true, if_false] at h ⊢
        exact ih _ _ _ _ h

/-- C3 (amended): the returned `iterations` never exceeds `max_iterations`,
and `success = true` implies either the run terminated at the clean initial
scan (zero iterations, no iteration recorded) or some recorded iteration has
`completed = true`. -/
theorem loop_iterations_le_and_success (env : LoopEnv) (maxIt : Nat) (tok : String) :
    (loopRun env maxIt tok).1.iterations ≤ maxIt ∧
      ((loopRun env maxIt tok).1.success = true →
        ((loopRun env maxIt tok).1.iterations = 0 ∧ (loopRun env maxIt tok).2.1 = []) ∨
          ∃ r ∈ (loopRun env maxIt tok).2.1, r.completed = true) := by
  unfold loopRun
  by_cases hp : checkPrerequisites env = true
  · simp only [hp, if_true]
    by_cases h0 : (env.scan 0).length = 0
    · simp [h0]
    · simp only [h0, if_false]
      refine ⟨loopIter_iterations_le env tok maxIt _ maxIt _ 1 1 [] (by omega), ?_⟩
      intro hs
      exact Or.inr (loopIter_success_completed env tok maxIt _ maxIt _ 1 1 [] hs)
  · rw [Bool.not_eq_true] at hp
    simp [hp]

theorem loop_iterations_le_and_success_witness :
    (loopRun envOneShot 3 "<COMPLETE>").1.iterations ≤ 3 ∧
      ((loopRun envOneShot 3 "<COMPLETE>").1.success = true →
        ((loopRun envOneShot 3 "<COMPLETE>").1.iterations = 0 ∧
            (loopRun envOneShot 3 "<COMPLETE>").2.1 = []) ∨
          ∃ r ∈ (loopRun envOneShot 3 "<COMPLETE>").2.1, r.completed = true) :=
  loop_iterations_le_and_success envOneShot 3 "<COMPLETE>"

/-- C3 counterexample: with all prerequisites met and a clean initial scan,
the run reports `success = true` while recording no iteration at all, so no
iteration of the run was recorded with `completed = true`. -/
theorem loop_success_without_completed_iteration :
    (loopRun envClean 1 "<COMPLETE>").1.success = true ∧
      (loopRun envClean 1 "<COMPLETE>").2.1 = [] ∧
      (loopRun envClean 1 "<COMPLETE>").2.1.all (fun r => !r.completed) = true :=
  ⟨rfl, rfl, rfl⟩

theorem runIteration_completed_false (env : LoopEnv) (tok : String) (i cv : Nat)
    (h : ¬ iterCompletes env tok i) :
    (runIteration tok (env.agent i) (env.scan i) (env.tests i) cv).completed = false := by
  rw [runIteration_completed_eq]
  unfold iterCompletes at h
  cases h1 : tokenIn tok (env.agent i)
  · simp
  · cases h2 : env.tests i
    · simp
    · cases h3 : (env.scan i).length == 0
      · simp [h3]
      · exact absurd ⟨h1, by simpa using h3, h2⟩ h

theorem loopIter_exhaust (env : LoopEnv) (tok : String) (maxIt ic : Nat) :
    ∀ fuel cv it si tr, si = it → it + fuel = maxIt + 1 →
      (∀ i, it ≤ i → i < it + fuel → ¬ iterCompletes env tok i) →
      (loopIter env tok maxIt ic fuel cv it si tr).1 =
          exhaustResult maxIt ic (env.scan (maxIt + 1)).length ∧
        (loopIter env tok maxIt ic fuel cv it si tr).2.2 = maxIt + 2 := by
  intro fuel
  induction fuel with
  | zero =>
      intro cv it si tr hsi hit _hno
      have hsi2 : si = maxIt + 1 := by omega
      subst hsi2
      simp [loopIter]
  | succ n ih =>
      intro cv it si tr hsi hit hno
      subst hsi
      have hnc : ¬ iterCompletes env tok si := hno si le_rfl (by omega)
      have hcf := runIteration_completed_false env tok si cv hnc
      simp only [loopIter, hcf, Bool.false_eq_true, if_false]
      exact ih _ _ _ _ rfl (by omega) (fun i h1 h2 => hno i (by omega) (by omega))

/-- C4 (and part of the spec's budget-exhaustion protocol): when the
prerequisites pass, the initial scan finds vulnerabilities, and no iteration
in the budget satisfies the ground-truth completion condition, the run
performs exactly one additional final scan (`max_iterations + 2` scans in
total), and returns `success = false`, `iterations = max_iterations`,
`final_vulns` from that final scan, and `vulnerabilities_fixed` equal to the
unclamped difference of initial and final counts. -/
theorem loop_exhaustion (env : LoopEnv) (maxIt : Nat) (tok : String)
    (hp : checkPrerequisites env = true) (h0 : (env.scan 0).length ≠ 0)
    (hno : ∀ i, i < maxIt + 1 → 1 ≤ i → ¬ iterCompletes env tok i) :
    (loopRun env maxIt tok).1.success = false ∧
      (loopRun env maxIt tok).1.iterations = maxIt ∧
      (loopRun env maxIt tok).1.final_vulns = (env.scan (maxIt + 1)).length ∧
      (loopRun env maxIt tok).1.vulnerabilities_fixed =
        ((env.scan 0).length : Int) - ((env.scan (maxIt + 1)).length : Int) ∧
      (loopRun env maxIt tok).2.2 = maxIt + 2 := by
  unfold loopRun
  simp only [hp, if_true, h0, if_false]
  have h := loopIter_exhaust env tok maxIt ((env.scan 0).length) maxIt ((env.scan 0).length)
    1 1 [] rfl (by omega) (fun i h1 h2 => hno i (by omega) h1)
  rw [h.1, h.2]
  simp [exhaustResult]

theorem loop_exhaustion_witness :
    (loopRun envStuck 2 "<COMPLETE>").1.success = false ∧
      (loopRun envStuck 2 "<COMPLETE>").1.iterations = 2 ∧
      (loopRun envStuck 2 "<COMPLETE>").1.final_vulns = (envStuck.scan 3).length ∧
      (loopRun envStuck 2 "<COMPLETE>").1.vulnerabilities_fixed =
        ((envStuck.scan 0).length : Int) - ((envStuck.scan 3).length : Int) ∧
      (loopRun envStuck 2 "<COMPLETE>").2.2 = 4 :=
  loop_exhaustion envStuck 2 "<COMPLETE>" rfl (by decide) (by decide)

theorem goLines_all_unparsed (parse : String → Option J) (h : ∀ l, parse l = none) :
    ∀ lines, goLines parse lines = .ok [] := by
  intro lines
  induction lines with
  | nil => rfl
  | cons l rest ih =>
      simp only [goLines]
      by_cases ht : pyStrip l = ""
      · simp [ht, ih]
      · simp [ht, h l, ih]

/-- C5 counterexample: with the external tool absent from PATH (every
invocation raising `FileNotFoundError`), `PipScanner.scan` and
`RubyScanner.scan` raise `FileNotFoundError` to their caller instead of
degrading: ruby raises at the advisory-database update preceding its `try`,
and pip raises inside its text fallback, which re-invokes the absent tool
outside any `try`. -/
theorem pip_ruby_scan_raise_on_absent_tool :
    pipScan pipEnvAbsent = Except.error PyExc.fileNotFound ∧
      rubyScan rubyEnvAbsent = Except.error PyExc.fileNotFound :=
  ⟨rfl, rfl⟩

/-- C5 (amended): for the npm, go and rust scanners, tool absence and
malformed JSON (at any exit status) degrade to the empty list; for pip and
ruby, malformed JSON (at any exit status, with the tool still present for
the re-invocation) degrades to the documented text-format fallback parse —
but tool absence makes pip and ruby raise (see the counterexample). -/
theorem scan_error_degradation :
    (∀ (env : PipScanEnv) (r r2 : ProcOut), env.jsonRun = some r → pyStrip r.stdout ≠ "" →
        env.parse r.stdout = none → env.textRun = some r2 →
        pipScan env = .ok (pipTextParse (r2.stdout ++ r2.stderr))) ∧
    (∀ (env : RubyScanEnv) (u r r2 : ProcOut), env.updateRun = some u →
        env.checkRun = some r → pyStrip r.stdout ≠ "" → env.parse r.stdout = none →
        env.textRun = some r2 →
        rubyScan env = .ok (rubyTextParse (r2.stdout ++ r2.stderr))) ∧
    (∀ env : NpmScanEnv, env.run = none → npmScan env = .ok []) ∧
    (∀ (env : NpmScanEnv) (r : ProcOut), env.run = some r → env.parse r.stdout = none →
        npmScan env = .ok []) ∧
    (∀ env : GoScanEnv, env.run = none → goScan env = .ok []) ∧
    (∀ (env : GoScanEnv) (r : ProcOut), env.run = some r → (∀ l, env.parse l = none) →
        goScan env = .ok []) ∧
    (∀ env : RustScanEnv, env.run = none → rustScan env = .ok []) ∧
    (∀ (env : RustScanEnv) (r : ProcOut), env.run = some r → env.parse r.stdout = none →
        rustScan env = .ok []) := by
  refine ⟨?_, ?_, ?_, ?_, ?_, ?_, ?_, ?_⟩
  · intro env r r2 h1 h2 h3 h4
    simp [pipScan, pipParseText, h1, h2, h3, h4]
  · intro env u r r2 h1 h2 h3 h4 h5
    simp [rubyScan, rubyParseText, h1, h2, h3, h4, h5]
  · intro env h
    simp [npmScan, h]
  · intro env r h1 h2
    by_cases ht : pyStrip r.stdout = ""
    · simp [npmScan, h1, ht]
    · simp [npmScan, h1, ht, h2]
  · intro env h
    simp [goScan, h]
  · intro env r h1 h2
    simp [goScan, h1, goLines_all_unparsed env.parse h2]
  · intro env h
    simp [rustScan, h]
  · intro env r h1 h2
    by_cases ht : pyStrip r.stdout = ""
    · simp [rustScan, h1, ht]
    · simp [rustScan, h1, ht, h2]

theorem scan_error_degradation_witness :
    pipScan pipEnvBadJson = .ok (pipTextParse "") ∧
      rubyScan rubyEnvBadJson = .ok (rubyTextParse "") ∧
      npmScan npmEnvAbsent = .ok [] ∧
      npmScan npmEnvBadJson = .ok [] ∧
      goScan goEnvAbsent = .ok [] ∧
      goScan goEnvBadJson = .ok [] ∧
      rustScan rustEnvAbsent = .ok [] ∧
      rustScan rustEnvBadJson = .ok [] :=
  ⟨scan_error_degradation.1 pipEnvBadJson _ _ rfl (by decide) rfl rfl,
   scan_error_degradation.2.1 rubyEnvBadJson _ _ _ rfl rfl (by decide) rfl rfl,
   scan_error_degradation.2.2.1 npmEnvAbsent rfl,
   scan_error_degradation.2.2.2.1 npmEnvBadJson _ rfl rfl,
   scan_error_degradation.2.2.2.2.1 goEnvAbsent rfl,
   scan_error_degradation.2.2.2.2.2.1 goEnvBadJson _ rfl (fun _ => rfl),
   scan_error_degradation.2.2.2.2.2.2.1 rustEnvAbsent rfl,
   scan_error_degradation.2.2.2.2.2.2.2 rustEnvBadJson _ rfl rfl⟩

/-- C8 counterexample: stdout decoding to the JSON number `5` (a shape that
is neither of the two supported ones) makes `NpmScanner.scan` raise
`TypeError` at the `"vulnerabilities" in data` membership test, instead of
yielding an empty result. -/
theorem npm_scan_raises_on_numeric_json :
    npmScan npmEnvNum = Except.error PyExc.typeError := rfl

theorem jLookup_any_eq_isSome (kvs : List (String × J)) (key : String) :
    kvs.any (fun kv => kv.1 = key) = (jLookup kvs key).isSome := by
  induction kvs with
  | nil => rfl
  | cons kv rest ih =>
      obtain ⟨k, v⟩ := kv
      simp only [List.any_cons, jLookup]
      by_cases h : k = key
      · simp [h]
      · simp [h, ih]

/-- C8 (amended): on a decoded JSON dict, `NpmScanner.scan` selects the v2
extraction when the key `"vulnerabilities"` is present, otherwise the v1
extraction when `"advisories"` is present, and otherwise yields the empty
list; but on non-dict shapes the claim's "empty result" does not hold in
general — Python's `in` raises `TypeError` on numbers, booleans and `None`,
and a list or string spuriously containing the key text reaches the
subscript, which raises `TypeError` (see the counterexample). -/
theorem npm_scan_shape_selection :
    (∀ kvs v, jLookup kvs "vulnerabilities" = some v →
        npmFromData (J.obj kvs) = npmV2 v) ∧
    (∀ kvs v, jLookup kvs "vulnerabilities" = none → jLookup kvs "advisories" = some v →
        npmFromData (J.obj kvs) = npmV1 v) ∧
    (∀ kvs, jLookup kvs "vulnerabilities" = none → jLookup kvs "advisories" = none →
        npmFromData (J.obj kvs) = .ok []) ∧
    (∀ (env : NpmScanEnv) (r : ProcOut) (data : J), env.run = some r →
        pyStrip r.stdout ≠ "" → env.parse r.stdout = some data →
        npmScan env = npmFromData data) := by
  refine ⟨?_, ?_, ?_, ?_⟩
  · intro kvs v h
    simp [npmFromData, pyContainsKey, pySubscript, jLookup_any_eq_isSome, h]
  · intro kvs v h1 h2
    simp [npmFromData, pyContainsKey, pySubscript, jLookup_any_eq_isSome, h1, h2]
  · intro kvs h1 h2
    simp [npmFromData, pyContainsKey, jLookup_any_eq_isSome, h1, h2]
  · intro env r data h1 h2 h3
    simp [npmScan, h1, h2, h3]

theorem npm_scan_shape_selection_witness :
    npmFromData npmV2Data = npmV2 npmV2Inner ∧
      npmFromData npmV1Data = npmV1 npmV1Inner ∧
      npmFromData npmNoKeyData = .ok [] :=
  ⟨npm_scan_shape_selection.1 _ npmV2Inner rfl,
   npm_scan_shape_selection.2.1 _ npmV1Inner rfl rfl,
   npm_scan_shape_selection.2.2.1 _ rfl rfl⟩

/-- C6: registry resolution lowers its key, so any two case variants of the
same identifier resolve to the same scanner class; `"npm"` and `"node"` both
resolve to the npm scanner class; and any key whose lowering is not in the
registry fails with the unsupported-ecosystem error whose message enumerates
all ten supported identifiers — a scanner class is never absent from a
successful result. -/
theorem getScanner_registry_behavior :
    (∀ (s t : String) (c : SClass), pyLower s = pyLower t →
        getScanner s = Except.ok c → getScanner t = Except.ok c) ∧
    getScanner "npm" = Except.ok SClass.npm ∧
    getScanner "node" = Except.ok SClass.npm ∧
    (∀ s : String, lookupClass ECOSYSTEM_SCANNERS (pyLower s) = none →
        getScanner s = Except.error
          ("Unsupported ecosystem: " ++ s ++ ". Supported: " ++ supportedStr)) ∧
    supportedStr = "cargo, gem, go, golang, node, npm, pip, python, ruby, rust" := by
  refine ⟨?_, rfl, rfl, ?_, ?_⟩
  · intro s t c h hs
    unfold getScanner at hs ⊢
    rw [← h]
    revert hs
    cases lookupClass ECOSYSTEM_SCANNERS (pyLower s) <;> simp
  · intro s h
    unfold getScanner
    rw [h]
  · rfl

theorem getScanner_registry_behavior_witness :
    getScanner "NPM" = Except.ok SClass.npm ∧
      getScanner "elixir" =
        Except.error
          "Unsupported ecosystem: elixir. Supported: cargo, gem, go, golang, node, npm, pip, python, ruby, rust" := by
  constructor
  · exact getScanner_registry_behavior.1 "npm" "NPM" SClass.npm (by decide)
      getScanner_registry_behavior.2.1
  · rw [getScanner_registry_behavior.2.2.2.1 "elixir" (by decide),
      getScanner_registry_behavior.2.2.2.2]
    rfl

/-- C7 counterexample: `install_dependencies` catches only
`subprocess.TimeoutExpired`; when the command is not found on PATH the
`FileNotFoundError` propagates to the caller instead of being reported as a
`(False, message)` result — shown here for the pip scanner (with a
requirements file present) and the ruby scanner. -/
theorem install_raises_on_missing_command :
    pipInstallDeps true false (Except.error SubErr.notFound) = Except.error PyExc.fileNotFound ∧
      rubyInstallDeps (Except.error SubErr.notFound) = Except.error PyExc.fileNotFound :=
  ⟨rfl, rfl⟩

/-- C7 (amended): every scanner's `run_tests` reports both a 300-second
timeout and a missing command as a `(False, descriptive message)` result,
and every scanner's `install_dependencies` reports a timeout the same way;
but `install_dependencies` propagates `FileNotFoundError` when its command
is not on PATH (see the counterexample). -/
theorem run_tests_install_degradation :
    (∀ (d : String) (copt : Option String),
        genericRunTests d copt (Except.error SubErr.timeout) = .ok (false, "Tests timed out")) ∧
    (∀ (d : String) (copt : Option String) (p : String) (ps : List String),
        splitCmd (defaultedCommand d copt) = p :: ps →
        genericRunTests d copt (Except.error SubErr.notFound) =
          .ok (false, "Command not found: " ++ p)) ∧
    (∀ (d : String) (copt : Option String) (r : ProcOut),
        genericRunTests d copt (Except.ok r) = .ok (r.returncode == 0, r.stdout ++ r.stderr)) ∧
    (∀ req pyp : Bool, (req || pyp) = true →
        pipInstallDeps req pyp (Except.error SubErr.timeout) =
          .ok (false, "Installation timed out")) ∧
    rubyInstallDeps (Except.error SubErr.timeout) = .ok (false, "Install timed out") ∧
    npmInstallDeps (Except.error SubErr.timeout) = .ok (false, "Installation timed out") ∧
    goInstallDeps (Except.error SubErr.timeout) = .ok (false, "Download timed out") ∧
    rustInstallDeps (Except.error SubErr.timeout) = .ok (false, "Build timed out") ∧
    (∀ m : String, genericInstall m (Except.error SubErr.notFound) =
        Except.error PyExc.fileNotFound) := by
  refine ⟨fun d copt => rfl, ?_, fun d copt r => rfl, ?_, rfl, rfl, rfl, rfl, fun m => rfl⟩
  · intro d copt p ps h
    simp [genericRunTests, h]
  · intro req pyp h
    simp [pipInstallDeps, h, genericInstall]

theorem run_tests_install_degradation_witness :
    pipRunTests none (Except.error SubErr.timeout) = .ok (false, "Tests timed out") ∧
      pipRunTests none (Except.error SubErr.notFound) =
        .ok (false, "Command not found: pytest") ∧
      pipInstallDeps true false (Except.error SubErr.timeout) =
        .ok (false, "Installation timed out") := by
  refine ⟨run_tests_install_degradation.1 "pytest" none, ?_, ?_⟩
  · have h := run_tests_install_degradation.2.1 "pytest" none "pytest" [] (by decide)
    exact h
  · exact run_tests_install_degradation.2.2.2.1 true false rfl

/-- C9 counterexample: on a PATH where only the plain `cargo` executable
resolves, `RustScanner.is_available` returns true although the scanner's
tool name `cargo-audit` is not resolvable, so availability is not
equivalent to resolvability of the scanner's named tool. -/
theorem rust_available_without_named_tool :
    rustIsAvailable whichCargoOnly = true ∧ whichCargoOnly rustScannerName = false :=
  ⟨rfl, rfl⟩

/-- C9 (amended): the base implementation and the pip, npm and go scanners
return exactly `which(name)` for their tool name; the rust scanner also
accepts the plain `cargo` executable, and the ruby scanner checks
`bundle-audit` or `bundler-audit` (its registered tool name being
`bundler-audit`), so for those two the equivalence with resolvability of
the named tool fails. -/
theorem is_available_characterization :
    (∀ (name : String) (which : String → Bool),
        scannerIsAvailable name which = which name) ∧
    (∀ which : String → Bool, pipIsAvailable which = which pipScannerName) ∧
    (∀ which : String → Bool, npmIsAvailable which = which npmScannerName) ∧
    (∀ which : String → Bool, goIsAvailable which = which goScannerName) ∧
    (∀ which : String → Bool,
        rustIsAvailable which = (which rustScannerName || which "cargo")) ∧
    (∀ which : String → Bool,
        rubyIsAvailable which = (which "bundle-audit" || which rubyScannerName)) :=
  ⟨fun _ _ => rfl, fun _ => rfl, fun _ => rfl, fun _ => rfl, fun _ => rfl, fun _ => rfl⟩


theorem exBind_ok (x : Except PyExc α) (f : α → Except PyExc β) (b : β)
    (h : exBind x f = Except.ok b) : ∃ a, x = Except.ok a ∧ f a = Except.ok b := by
  cases x with
  | error e => simp [exBind] at h
  | ok a => exact ⟨a, rfl, h⟩

theorem redactValue_ok (sv : J) (red : String) (h : redactValue sv = Except.ok red) :
    ∃ raw, red = redactSecret raw := by
  cases sv with
  | null => simp [redactValue] at h
  | b x => simp [redactValue] at h
  | i x => simp [redactValue] at h
  | s raw =>
      simp [redactValue] at h
      exact ⟨raw, h.symm⟩
  | arr xs =>
      simp only [redactValue] at h
      split at h
      · simp at h
      · rw [Except.ok.injEq] at h
        exact ⟨"", h.symm⟩
  | obj kvs =>
      simp only [redactValue] at h
      split at h
      · simp at h
      · rw [Except.ok.injEq] at h
        exact ⟨"", h.symm⟩

theorem mkScanSecret_secret (f : J) (rec : SecretRec) (h : mkScanSecret f = Except.ok rec) :
    ∃ raw, rec.secret = J.s (redactSecret raw) := by
  cases f with
  | obj fk =>
      obtain ⟨red, hrv, hok⟩ := exBind_ok _ _ _ h
      obtain ⟨raw, hraw⟩ := redactValue_ok _ red hrv
      simp only [Except.ok.injEq] at hok
      refine ⟨raw, ?_⟩
      rw [← hok, hraw]
  | null => simp [mkScanSecret] at h
  | b x => simp [mkScanSecret] at h
  | i x => simp [mkScanSecret] at h
  | s x => simp [mkScanSecret] at h
  | arr xs => simp [mkScanSecret] at h

theorem mkHistSecret_secret (f : J) (rec : SecretRec) (h : mkHistSecret f = Except.ok rec) :
    ∃ raw, rec.secret = J.s (redactSecret raw) := by
  obtain ⟨rec0, hm, hok⟩ := exBind_ok _ _ _ h
  obtain ⟨raw, hraw⟩ := mkScanSecret_secret f rec0 hm
  cases f with
  | obj fk =>
      simp only [Except.ok.injEq] at hok
      refine ⟨raw, ?_⟩
      rw [← hok]
      exact hraw
  | null => simp at hok
  | b x => simp at hok
  | i x => simp at hok
  | s x => simp at hok
  | arr xs => simp at hok

theorem mapE_secret_redacted (g : J → Except PyExc SecretRec)
    (hg : ∀ f rec, g f = Except.ok rec → ∃ raw, rec.secret = J.s (redactSecret raw)) :
    ∀ (xs : List J) (out : List SecretRec), mapE g xs = Except.ok out →
      ∀ rec ∈ out, ∃ raw, rec.secret = J.s (redactSecret raw) := by
  intro xs
  induction xs with
  | nil =>
      intro out h rec hrec
      unfold mapE at h
      rw [Except.ok.injEq] at h
      subst h
      exact absurd hrec (by simp)
  | cons x rest ih =>
      intro out h rec hrec
      unfold mapE at h
      split at h
      · simp at h
      · split at h
        · simp at h
        · rw [Except.ok.injEq] at h
          subst h
          rename_i e1 y hy e2 ys hys
          rcases List.mem_cons.mp hrec with h1 | h2
          · subst h1
            exact hg x rec hy
          · exact ih ys hys rec h2

theorem secretScanWith_redacted (g : J → Except PyExc SecretRec)
    (hg : ∀ f rec, g f = Except.ok rec → ∃ raw, rec.secret = J.s (redactSecret raw))
    (env : SecretScanEnv) (out : List SecretRec) (h : secretScanWith g env = Except.ok out) :
    ∀ rec ∈ out, ∃ raw, rec.secret = J.s (redactSecret raw) := by
  intro rec hrec
  unfold secretScanWith at h
  split at h
  · rw [Except.ok.injEq] at h
    subst h
    exact absurd hrec (by simp)
  · split at h
    · rw [Except.ok.injEq] at h
      subst h
      exact absurd hrec (by simp)
    · split at h
      · rw [Except.ok.injEq] at h
        subst h
        exact absurd hrec (by simp)
      · split at h
        · simp at h
        · rename_i findings hfind
          exact mapE_secret_redacted g hg findings out h rec hrec

/-- C10: every record emitted by `SecretScanner.scan` or `scan_git_history`
carries a secret field of the form `redactSecret raw` for some raw detected
string; when the raw value is longer than 4 characters the redaction is
exactly its first four characters followed by one asterisk per remaining
character, otherwise exactly `"****"`; consequently any two raw values
agreeing in length and in their first four characters redact identically
(characters past position four never influence the output). -/
theorem secret_redaction :
    (∀ (env : SecretScanEnv) (out : List SecretRec), secretScan env = Except.ok out →
        ∀ rec ∈ out, ∃ raw, rec.secret = J.s (redactSecret raw)) ∧
    (∀ (env : SecretScanEnv) (out : List SecretRec), secretScanHistory env = Except.ok out →
        ∀ rec ∈ out, ∃ raw, rec.secret = J.s (redactSecret raw)) ∧
    (∀ raw : String, 4 < raw.length →
        redactSecret raw =
          String.mk (raw.data.take 4) ++ String.mk (List.replicate (raw.length - 4) '*')) ∧
    (∀ raw : String, ¬ 4 < raw.length → redactSecret raw = "****") ∧
    (∀ r1 r2 : String, r1.length = r2.length → r1.data.take 4 = r2.data.take 4 →
        redactSecret r1 = redactSecret r2) := by
  refine ⟨?_, ?_, ?_, ?_, ?_⟩
  · exact fun env out h => secretScanWith_redacted mkScanSecret mkScanSecret_secret env out h
  · exact fun env out h => secretScanWith_redacted mkHistSecret mkHistSecret_secret env out h
  · intro raw h
    unfold redactSecret
    rw [if_pos h]
  · intro raw h
    unfold redactSecret
    rw [if_neg h]
  · intro r1 r2 hlen htake
    unfold redactSecret
    by_cases h : 4 < r1.length
    · rw [if_pos h, if_pos (hlen ▸ h), htake, hlen]
    · rw [if_neg h, if_neg (hlen ▸ h)]

theorem secret_redaction_witness :
    (∃ raw, recA.secret = J.s (redactSecret raw)) ∧
      redactSecret "sk-abcdef123456" =
        String.mk ("sk-abcdef123456".data.take 4) ++
          String.mk (List.replicate ("sk-abcdef123456".length - 4) '*') ∧
      redactSecret "topsecret1" = redactSecret "topsecret2" :=
  ⟨secret_redaction.1 secretEnvA [recA] rfl recA (by simp),
   secret_redaction.2.2.1 "sk-abcdef123456" (by decide),
   secret_redaction.2.2.2.2 "topsecret1" "topsecret2" (by decide) (by decide)⟩

theorem iteration_completed_iff_witness :
    (runIteration "<COMPLETE>" "done <COMPLETE>" [] true 3).completed = true ↔
      (tokenIn "<COMPLETE>" "done <COMPLETE>" = true ∧ ([] : List PyVuln).length = 0 ∧
        true = true) :=
  iteration_completed_iff "<COMPLETE>" "done <COMPLETE>" [] true 3
